/-
  Verification of the Symbol Validation Manager (SVM) of
  runtime/compiler/runtime/SymbolValidationManager.hpp.

  The header declares the validation-record hierarchy and the manager; the
  inline member functions (isEqual, isLessThan, isAlreadyValidated,
  inHeuristicRegion, enterHeuristicRegion, exitHeuristicRegion,
  shouldNotDefineSymbol, the NO_ID/FIRST_ID constants and all field
  declarations) are embedded directly from the header.  Member functions whose
  bodies live in SymbolValidationManager.cpp (not part of this source tree)
  are modelled from the specification; each such definition carries a doc
  comment starting with "Modelled from the spec:".

  Opaque runtime pointers (TR_OpaqueClassBlock*, TR_OpaqueMethodBlock*,
  J9ConstantPool*, void*) are modelled as natural-number addresses with
  NULL = 0; pointer comparison in the C++ std::less / record orders is
  address comparison.  uint16_t / uint32_t fields are naturals with explicit
  2^16 / 2^32 bounds where overflow matters; int32_t fields are integers.
-/

import Mathlib

namespace SVM

/-- Opaque pointer values (TR_OpaqueClassBlock*, TR_OpaqueMethodBlock*,
void*, ...) are modelled by their addresses; `NULL` is address 0. -/
abbrev Ptr := Nat

/-- The C++ `NULL` pointer. -/
def NULLptr : Ptr := 0

/-- TR_YesNoMaybe (external enum used by MethodFromSingleImplementer). -/
inductive TR_YesNoMaybe where
  | TR_maybe
  | TR_no
  | TR_yes
  deriving DecidableEq, Repr

/-- Numeric value of a TR_YesNoMaybe for ordering purposes. -/
def TR_YesNoMaybe.toNat : TR_YesNoMaybe → Nat
  | .TR_maybe => 0
  | .TR_no => 1
  | .TR_yes => 2

/-- The TR_ExternalRelocationTargetKind tags used by the SVM record types,
one per concrete record struct declared in the header (in declaration
order).  The numeric tag values come from an external enum that is not part
of this source tree; only their distinctness matters for the record order,
so tags are assigned by position (see `kindTag`). -/
inductive RecordKind where
  | TR_ValidateClassByName
  | TR_ValidateProfiledClass
  | TR_ValidateClassFromCP
  | TR_ValidateDefiningClassFromCP
  | TR_ValidateStaticClassFromCP
  | TR_ValidateClassFromMethod
  | TR_ValidateComponentClassFromArrayClass
  | TR_ValidateArrayClassFromComponentClass
  | TR_ValidateSuperClassFromClass
  | TR_ValidateClassInstanceOfClass
  | TR_ValidateSystemClassByName
  | TR_ValidateClassFromITableIndexCP
  | TR_ValidateDeclaringClassFromFieldOrStatic
  | TR_ValidateClassClass
  | TR_ValidateConcreteSubClassFromClass
  | TR_ValidateClassChain
  | TR_ValidateMethodFromClass
  | TR_ValidateStaticMethodFromCP
  | TR_ValidateSpecialMethodFromCP
  | TR_ValidateVirtualMethodFromCP
  | TR_ValidateVirtualMethodFromOffset
  | TR_ValidateInterfaceMethodFromCP
  | TR_ValidateMethodFromClassAndSig
  | TR_ValidateStackWalkerMaySkipFramesRecord
  | TR_ValidateClassInfoIsInitialized
  | TR_ValidateMethodFromSingleImplementer
  | TR_ValidateMethodFromSingleInterfaceImplementer
  | TR_ValidateMethodFromSingleAbstractImplementer
  | TR_ValidateImproperInterfaceMethodFromCP
  deriving DecidableEq, Repr, Fintype

/-- The `_kind` tag value of a record kind.  The concrete numeric values of
TR_ExternalRelocationTargetKind are defined outside this source tree; they
are assigned here by declaration position (injectively, which is all the
record order depends on). -/
def kindTag : RecordKind → Nat
  | .TR_ValidateClassByName => 0
  | .TR_ValidateProfiledClass => 1
  | .TR_ValidateClassFromCP => 2
  | .TR_ValidateDefiningClassFromCP => 3
  | .TR_ValidateStaticClassFromCP => 4
  | .TR_ValidateClassFromMethod => 5
  | .TR_ValidateComponentClassFromArrayClass => 6
  | .TR_ValidateArrayClassFromComponentClass => 7
  | .TR_ValidateSuperClassFromClass => 8
  | .TR_ValidateClassInstanceOfClass => 9
  | .TR_ValidateSystemClassByName => 10
  | .TR_ValidateClassFromITableIndexCP => 11
  | .TR_ValidateDeclaringClassFromFieldOrStatic => 12
  | .TR_ValidateClassClass => 13
  | .TR_ValidateConcreteSubClassFromClass => 14
  | .TR_ValidateClassChain => 15
  | .TR_ValidateMethodFromClass => 16
  | .TR_ValidateStaticMethodFromCP => 17
  | .TR_ValidateSpecialMethodFromCP => 18
  | .TR_ValidateVirtualMethodFromCP => 19
  | .TR_ValidateVirtualMethodFromOffset => 20
  | .TR_ValidateInterfaceMethodFromCP => 21
  | .TR_ValidateMethodFromClassAndSig => 22
  | .TR_ValidateStackWalkerMaySkipFramesRecord => 23
  | .TR_ValidateClassInfoIsInitialized => 24
  | .TR_ValidateMethodFromSingleImplementer => 25
  | .TR_ValidateMethodFromSingleInterfaceImplementer => 26
  | .TR_ValidateMethodFromSingleAbstractImplementer => 27
  | .TR_ValidateImproperInterfaceMethodFromCP => 28

/-- The concrete SymbolValidationRecord variants of the header, one
constructor per concrete struct, carrying exactly the declared fields in
declaration order.  (The C++ expresses this as a virtual-dispatch class
hierarchy; the closed set of subclasses makes it a tagged variant.) -/
inductive SymbolValidationRecord where
  | classByName (clazz beholder : Ptr)
  | profiledClass (clazz classChain : Ptr)
  | classFromCP (clazz beholder : Ptr) (cpIndex : Nat)
  | definingClassFromCP (clazz beholder : Ptr) (cpIndex : Nat) ( isStatic : Bool)
  | staticClassFromCP (clazz beholder : Ptr) (cpIndex : Nat)
  | classFromMethod (clazz method : Ptr)
  | componentClassFromArrayClass (componentClass arrayClass : Ptr)
  | arrayClassFromComponentClass (arrayClass componentClass : Ptr)
  | superClassFromClass (superClass childClass : Ptr)
  | classInstanceOfClass (classOne classTwo : Ptr)
      (objectTypeIsFixed castTypeIsFixed isInstanceOf : Bool)
  | systemClassByName (systemClass : Ptr)
  | classFromITableIndexCP (clazz beholder : Ptr) (cpIndex : Int)
  | declaringClassFromFieldOrStatic (clazz beholder : Ptr) (cpIndex : Nat)
  | classClass (classClass objectClass : Ptr)
  | concreteSubClassFromClass (childClass superClass : Ptr)
  | classChain (clazz classChain : Ptr)
  | methodFromClass (method beholder : Ptr) (index : Nat)
  | staticMethodFromCP (method beholder : Ptr) (cpIndex : Int)
  | specialMethodFromCP (method beholder : Ptr) (cpIndex : Int)
  | virtualMethodFromCP (method beholder : Ptr) (cpIndex : Int)
  | virtualMethodFromOffset (method beholder : Ptr) (virtualCallOffset : Int)
      (ignoreRtResolve : Bool)
  | interfaceMethodFromCP (method beholder lookup : Ptr) (cpIndex : Int)
  | methodFromClassAndSig (method methodClass beholder : Ptr)
  | stackWalkerMaySkipFrames (method methodClass : Ptr) (skipFrames : Bool)
  | classInfoIsInitialized (clazz : Ptr) ( isInitialized : Bool)
  | methodFromSingleImplementer (method thisClass : Ptr) (cpIndexOrVftSlot : Int)
      (callerMethod : Ptr) (useGetResolvedInterfaceMethod : TR_YesNoMaybe)
  | methodFromSingleInterfaceImplementer (method thisClass : Ptr) (cpIndex : Int)
      (callerMethod : Ptr)
  | methodFromSingleAbstractImplementer (method thisClass : Ptr) (vftSlot : Int)
      (callerMethod : Ptr)
  | improperInterfaceMethodFromCP (method beholder : Ptr) (cpIndex : Int)
  deriving DecidableEq, Repr

namespace SymbolValidationRecord

/-- The `_kind` tag each record is constructed with (the constructor
argument passed to the SymbolValidationRecord base constructor in the
header). -/
def kindOf : SymbolValidationRecord → RecordKind
  | classByName .. => .TR_ValidateClassByName
  | profiledClass .. => .TR_ValidateProfiledClass
  | classFromCP .. => .TR_ValidateClassFromCP
  | definingClassFromCP .. => .TR_ValidateDefiningClassFromCP
  | staticClassFromCP .. => .TR_ValidateStaticClassFromCP
  | classFromMethod .. => .TR_ValidateClassFromMethod
  | componentClassFromArrayClass .. => .TR_ValidateComponentClassFromArrayClass
  | arrayClassFromComponentClass .. => .TR_ValidateArrayClassFromComponentClass
  | superClassFromClass .. => .TR_ValidateSuperClassFromClass
  | classInstanceOfClass .. => .TR_ValidateClassInstanceOfClass
  | systemClassByName .. => .TR_ValidateSystemClassByName
  | classFromITableIndexCP .. => .TR_ValidateClassFromITableIndexCP
  | declaringClassFromFieldOrStatic .. => .TR_ValidateDeclaringClassFromFieldOrStatic
  | classClass .. => .TR_ValidateClassClass
  | concreteSubClassFromClass .. => .TR_ValidateConcreteSubClassFromClass
  | classChain .. => .TR_ValidateClassChain
  | methodFromClass .. => .TR_ValidateMethodFromClass
  | staticMethodFromCP .. => .TR_ValidateStaticMethodFromCP
  | specialMethodFromCP .. => .TR_ValidateSpecialMethodFromCP
  | virtualMethodFromCP .. => .TR_ValidateVirtualMethodFromCP
  | virtualMethodFromOffset .. => .TR_ValidateVirtualMethodFromOffset
  | interfaceMethodFromCP .. => .TR_ValidateInterfaceMethodFromCP
  | methodFromClassAndSig .. => .TR_ValidateMethodFromClassAndSig
  | stackWalkerMaySkipFrames .. => .TR_ValidateStackWalkerMaySkipFramesRecord
  | classInfoIsInitialized .. => .TR_ValidateClassInfoIsInitialized
  | methodFromSingleImplementer .. => .TR_ValidateMethodFromSingleImplementer
  | methodFromSingleInterfaceImplementer .. => .TR_ValidateMethodFromSingleInterfaceImplementer
  | methodFromSingleAbstractImplementer .. => .TR_ValidateMethodFromSingleAbstractImplementer
  | improperInterfaceMethodFromCP .. => .TR_ValidateImproperInterfaceMethodFromCP

/-- Injection of a bool field into the comparison key (C++ compares bool
fields as integers: false < true). -/
def boolKey (b : Bool) : Int := if b then 1 else 0

/-- The kind-specific fields of a record, in declaration order, each mapped
into Int for uniform lexicographic comparison: pointers by address, unsigned
ints and enum values by value, bools by false<true. -/
def fieldsKey : SymbolValidationRecord → List Int
  | classByName c b => [(c : Int), (b : Int)]
  | profiledClass c cc => [(c : Int), (cc : Int)]
  | classFromCP c b i => [(c : Int), (b : Int), (i : Int)]
  | definingClassFromCP c b i s => [(c : Int), (b : Int), (i : Int), boolKey s]
  | staticClassFromCP c b i => [(c : Int), (b : Int), (i : Int)]
  | classFromMethod c m => [(c : Int), (m : Int)]
  | componentClassFromArrayClass c a => [(c : Int), (a : Int)]
  | arrayClassFromComponentClass a c => [(a : Int), (c : Int)]
  | superClassFromClass s c => [(s : Int), (c : Int)]
  | classInstanceOfClass c1 c2 f1 f2 f3 =>
      [(c1 : Int), (c2 : Int), boolKey f1, boolKey f2, boolKey f3]
  | systemClassByName s => [(s : Int)]
  | classFromITableIndexCP c b i => [(c : Int), (b : Int), i]
  | declaringClassFromFieldOrStatic c b i => [(c : Int), (b : Int), (i : Int)]
  | classClass c o => [(c : Int), (o : Int)]
  | concreteSubClassFromClass c s => [(c : Int), (s : Int)]
  | classChain c cc => [(c : Int), (cc : Int)]
  | methodFromClass m b i => [(m : Int), (b : Int), (i : Int)]
  | staticMethodFromCP m b i => [(m : Int), (b : Int), i]
  | specialMethodFromCP m b i => [(m : Int), (b : Int), i]
  | virtualMethodFromCP m b i => [(m : Int), (b : Int), i]
  | virtualMethodFromOffset m b o ig => [(m : Int), (b : Int), o, boolKey ig]
  | interfaceMethodFromCP m b l i => [(m : Int), (b : Int), (l : Int), i]
  | methodFromClassAndSig m mc b => [(m : Int), (mc : Int), (b : Int)]
  | stackWalkerMaySkipFrames m mc s => [(m : Int), (mc : Int), boolKey s]
  | classInfoIsInitialized c i => [(c : Int), boolKey i]
  | methodFromSingleImplementer m tc i cm u =>
      [(m : Int), (tc : Int), i, (cm : Int), (u.toNat : Int)]
  | methodFromSingleInterfaceImplementer m tc i cm =>
      [(m : Int), (tc : Int), i, (cm : Int)]
  | methodFromSingleAbstractImplementer m tc v cm =>
      [(m : Int), (tc : Int), v, (cm : Int)]
  | improperInterfaceMethodFromCP m b i => [(m : Int), (b : Int), i]

/-- Lexicographic strict order on field-key lists (first differing position
decides). -/
def lexLt : List Int → List Int → Bool
  | [], [] => false
  | [], _ :: _ => true
  | _ :: _, [] => false
  | x :: xs, y :: ys => x < y || (x == y && lexLt xs ys)

/-- Modelled from the spec: the per-kind `isLessThanWithinKind` overrides
live in SymbolValidationManager.cpp, which is not part of this source tree.
The spec makes the kind-specific fields "secondary sort keys, defining a
strict total order within the kind": lexicographic comparison of the fields
in declaration order.  It is only ever invoked on two records of the same
kind (`isLessThan` dispatches here only on equal tags). -/
def isLessThanWithinKind (a b : SymbolValidationRecord) : Bool :=
  lexLt a.fieldsKey b.fieldsKey

/-- SymbolValidationRecord::isLessThan (header, inline): compare the `_kind`
tags first; on equal tags defer to the kind-specific comparison. -/
def isLessThan (a b : SymbolValidationRecord) : Bool :=
  if kindTag a.kindOf < kindTag b.kindOf then true
  else if kindTag b.kindOf < kindTag a.kindOf then false
  else isLessThanWithinKind a b

/-- SymbolValidationRecord::isEqual (header, inline):
`!isLessThan(other) && !other->isLessThan(this)`. -/
def isEqual (a b : SymbolValidationRecord) : Bool :=
  !isLessThan a b && !isLessThan b a

/-- SymbolValidationRecord::isClassValidationRecord (header, inline): the
base class returns false; ClassValidationRecord overrides it to return true
and the override is inherited by exactly the record structs that derive from
ClassValidationRecord (ClassByNameRecord through ConcreteSubClassFromClass-
Record, except ClassInstanceOfClassRecord which derives directly from
SymbolValidationRecord; ClassChainRecord and all method records also derive
directly from SymbolValidationRecord). -/
def isClassValidationRecord : SymbolValidationRecord → Bool
  | classByName .. => true
  | profiledClass .. => true
  | classFromCP .. => true
  | definingClassFromCP .. => true
  | staticClassFromCP .. => true
  | classFromMethod .. => true
  | componentClassFromArrayClass .. => true
  | arrayClassFromComponentClass .. => true
  | superClassFromClass .. => true
  | classInstanceOfClass .. => false
  | systemClassByName .. => true
  | classFromITableIndexCP .. => true
  | declaringClassFromFieldOrStatic .. => true
  | classClass .. => true
  | concreteSubClassFromClass .. => true
  | classChain .. => false
  | methodFromClass .. => false
  | staticMethodFromCP .. => false
  | specialMethodFromCP .. => false
  | virtualMethodFromCP .. => false
  | virtualMethodFromOffset .. => false
  | interfaceMethodFromCP .. => false
  | methodFromClassAndSig .. => false
  | stackWalkerMaySkipFrames .. => false
  | classInfoIsInitialized .. => false
  | methodFromSingleImplementer .. => false
  | methodFromSingleInterfaceImplementer .. => false
  | methodFromSingleAbstractImplementer .. => false
  | improperInterfaceMethodFromCP .. => false

end SymbolValidationRecord

/-- TR::SymbolType (external to this source tree): the two symbol
categories the manager distinguishes. -/
inductive SymbolType where
  | typeClass
  | typeMethod
  deriving DecidableEq, Repr

/-- SymbolValidationManager::Presence (header). -/
inductive Presence where
  | SymRequired
  | SymOptional
  deriving DecidableEq, Repr

/-- SymbolValidationManager::TypedSymbol (header): one entry of the
ID→symbol table built during AOT load. -/
structure TypedSymbol where
  symbol : Ptr
  type : SymbolType
  hasValue : Bool
  deriving DecidableEq, Repr

/-- The SymbolValidationManager state (the private data members declared in
the header): the monotonically increasing `_symbolID` (uint16_t), the
heuristic-region nesting counter `_heuristicRegion` (uint32_t), the
symbol→ID map used during compilation, the insertion-ordered record list
`_symbolValidationRecords`, the ordered record set
`_alreadyGeneratedRecords` (membership is record equality under `isEqual`),
and the ID→symbol table used during AOT load. -/
structure SymbolValidationManager where
  symbolID : Nat
  heuristicRegion : Nat
  symbolToIdMap : List (Ptr × Nat)
  symbolValidationRecords : List SymbolValidationRecord
  alreadyGeneratedRecords : List SymbolValidationRecord
  idToSymbolTable : List TypedSymbol
  deriving Repr, DecidableEq

namespace SymbolValidationManager

/-- static const uint16_t NO_ID = 0 (header). -/
def NO_ID : Nat := 0

/-- static const uint16_t FIRST_ID = 1 (header). -/
def FIRST_ID : Nat := 1

/-- Modelled from the spec: the constructor body is in
SymbolValidationManager.cpp, not in this source tree.  One fresh instance
per compilation attempt: no records, no ID bindings, heuristic counter 0,
and `_symbolID` starting at FIRST_ID so the first allocated ID is 1. -/
def init : SymbolValidationManager :=
  { symbolID := FIRST_ID
    heuristicRegion := 0
    symbolToIdMap := []
    symbolValidationRecords := []
    alreadyGeneratedRecords := []
    idToSymbolTable := [] }

/-- inHeuristicRegion (header, inline): `_heuristicRegion > 0`. -/
def inHeuristicRegion (svm : SymbolValidationManager) : Bool :=
  svm.heuristicRegion > 0

/-- enterHeuristicRegion (header, inline): `_heuristicRegion++` on a
uint32_t, i.e. increment modulo 2^32. -/
def enterHeuristicRegion (svm : SymbolValidationManager) : SymbolValidationManager :=
  { svm with heuristicRegion := (svm.heuristicRegion + 1) % 4294967296 }

/-- exitHeuristicRegion (header, inline): `_heuristicRegion--` on a
uint32_t, i.e. an unconditional decrement modulo 2^32 (0 wraps to
4294967295). -/
def exitHeuristicRegion (svm : SymbolValidationManager) : SymbolValidationManager :=
  { svm with heuristicRegion := (svm.heuristicRegion + 4294967295) % 4294967296 }

/-- Modelled from the spec: `tryGetIDFromSymbol`'s body is in
SymbolValidationManager.cpp, not in this source tree.  Per the spec it is a
pure lookup in the symbol→ID map that never allocates, and the non-asserting
query yields NO_ID (0) for a symbol never added. -/
def tryGetIDFromSymbol (svm : SymbolValidationManager) (symbol : Ptr) : Nat :=
  match svm.symbolToIdMap.find? (fun p => p.1 == symbol) with
  | some p => p.2
  | none => NO_ID

/-- isAlreadyValidated (header, inline):
`inHeuristicRegion() || tryGetIDFromSymbol(symbol) != NO_ID`. -/
def isAlreadyValidated (svm : SymbolValidationManager) (symbol : Ptr) : Bool :=
  svm.inHeuristicRegion || svm.tryGetIDFromSymbol symbol != NO_ID

/-- shouldNotDefineSymbol (header, inline):
`symbol == NULL || inHeuristicRegion()`. -/
def shouldNotDefineSymbol (svm : SymbolValidationManager) (symbol : Ptr) : Bool :=
  symbol == NULLptr || svm.inHeuristicRegion

/-- Modelled from the spec: `getNewSymbolID`'s body is in
SymbolValidationManager.cpp, not in this source tree.  Per the spec it
allocates the next monotonically increasing 16-bit ID (IDs are never reused
or reassigned); exhausting the 16-bit ID space is an expected-but-rare
resource-limit failure that abandons the current attempt (spec §7), so
allocation fails rather than wrapping. -/
def getNewSymbolID (svm : SymbolValidationManager) :
    Except Unit (Nat × SymbolValidationManager) :=
  if svm.symbolID < 65535 then
    .ok (svm.symbolID, { svm with symbolID := svm.symbolID + 1 })
  else
    .error ()

/-- Modelled from the spec: `recordExists`'s body is in
SymbolValidationManager.cpp, not in this source tree.  Per the spec it is
the membership test of the ordered record set `_alreadyGeneratedRecords`,
whose element equality is `isEqual` (neither record `isLessThan` the
other). -/
def recordExists (svm : SymbolValidationManager)
    (record : SymbolValidationRecord) : Bool :=
  svm.alreadyGeneratedRecords.any (fun r => r.isEqual record)

/-- Modelled from the spec: `appendNewRecord`'s body is in
SymbolValidationManager.cpp, not in this source tree.  Per the spec it
assumes the record is not yet present, inserts it into both the ordered set
and the insertion-ordered list, and associates `symbol` with a fresh ID if
it has none; a failed ID allocation abandons the attempt. -/
def appendNewRecord (svm : SymbolValidationManager) (symbol : Ptr)
    (record : SymbolValidationRecord) : Except Unit SymbolValidationManager :=
  if svm.tryGetIDFromSymbol symbol == NO_ID then
    match svm.getNewSymbolID with
    | .ok (id, svm') =>
        .ok { svm' with
              symbolToIdMap := (symbol, id) :: svm'.symbolToIdMap
              symbolValidationRecords := svm'.symbolValidationRecords ++ [record]
              alreadyGeneratedRecords := record :: svm'.alreadyGeneratedRecords }
    | .error e => .error e
  else
    .ok { svm with
          symbolValidationRecords := svm.symbolValidationRecords ++ [record]
          alreadyGeneratedRecords := record :: svm.alreadyGeneratedRecords }

/-- Modelled from the spec: `appendRecordIfNew`'s body is in
SymbolValidationManager.cpp, not in this source tree.  Per the spec it
checks existence first; if new it behaves as `appendNewRecord`, and if
already present it discards the record (a no-op). -/
def appendRecordIfNew (svm : SymbolValidationManager) (symbol : Ptr)
    (record : SymbolValidationRecord) : Except Unit SymbolValidationManager :=
  if svm.recordExists record then .ok svm
  else svm.appendNewRecord symbol record

/-- Modelled from the spec: the `add*Record` wrapper bodies are in
SymbolValidationManager.cpp, not in this source tree.  Per the spec every
wrapper returns false — adding no record and allocating no ID — when the
subject symbol is NULL or the manager is inside a heuristic region
(`shouldNotDefineSymbol`, followed by `abandonRecord` which frees the record
and yields false); otherwise it runs `appendRecordIfNew` on the record built
from its arguments and reports success. -/
def addRecord (svm : SymbolValidationManager) (symbol : Ptr)
    (record : SymbolValidationRecord) :
    Except Unit (Bool × SymbolValidationManager) :=
  if svm.shouldNotDefineSymbol symbol then .ok (false, svm)
  else
    match svm.appendRecordIfNew symbol record with
    | .ok svm' => .ok (true, svm')
    | .error e => .error e

/-- Modelled from the spec: `getSymbolFromID`'s body is in
SymbolValidationManager.cpp, not in this source tree.  Per the spec it
consults the ID→symbol table; when the ID has no bound symbol of the
requested category, `SymRequired` signals failure (fails the AOT load) and
`SymOptional` returns an empty result (NULL) without signaling failure. -/
def getSymbolFromID (svm : SymbolValidationManager) (id : Nat)
    (type : SymbolType) (presence : Presence) : Except Unit Ptr :=
  let entry := svm.idToSymbolTable.get? id
  match entry with
  | some e =>
      if e.hasValue && e.type == type then .ok e.symbol
      else
        match presence with
        | .SymRequired => .error ()
        | .SymOptional => .ok NULLptr
  | none =>
      match presence with
      | .SymRequired => .error ()
      | .SymOptional => .ok NULLptr

/-- getClassFromID (header declaration): class-typed ID lookup, same
presence policy. -/
def getClassFromID (svm : SymbolValidationManager) (id : Nat)
    (presence : Presence) : Except Unit Ptr :=
  svm.getSymbolFromID id .typeClass presence

/-- getMethodFromID (header declaration): method-typed ID lookup, same
presence policy. -/
def getMethodFromID (svm : SymbolValidationManager) (id : Nat)
    (presence : Presence) : Except Unit Ptr :=
  svm.getSymbolFromID id .typeMethod presence

/-- Iterated `getNewSymbolID`: the IDs handed out by `count` consecutive
successful allocations, in order. -/
def newSymbolIDs (svm : SymbolValidationManager) :
    Nat → Except Unit (List Nat × SymbolValidationManager)
  | 0 => .ok ([], svm)
  | n + 1 =>
      match svm.getNewSymbolID with
      | .ok (id, svm') =>
          match svm'.newSymbolIDs n with
          | .ok (ids, svm'') => .ok (id :: ids, svm'')
          | .error e => .error e
      | .error e => .error e

end SymbolValidationManager

namespace SymbolValidationRecord

/-- Inverse of `boolKey`, used to read a bool field back off a key. -/
def boolFromKey (i : Int) : Bool := i != 0

/-- Inverse of the TR_YesNoMaybe key injection. -/
def ynmFromKey (i : Int) : TR_YesNoMaybe :=
  if i = 0 then .TR_maybe else if i = 1 then .TR_no else .TR_yes

@[simp] lemma boolFromKey_boolKey (b : Bool) : boolFromKey (boolKey b) = b := by
  cases b <;> rfl

@[simp] lemma ynmFromKey_toNat (u : TR_YesNoMaybe) :
    ynmFromKey ((u.toNat : Nat) : Int) = u := by
  cases u <;> rfl

/-- Partial inverse of `fieldsKey` at a given kind: reconstructs the record
of that kind from its field-key list (used only to prove that `fieldsKey`
is injective on each kind, i.e. that every kind-specific field participates
in the within-kind order). -/
def fromKey : RecordKind → List Int → Option SymbolValidationRecord
  | .TR_ValidateClassByName, [c, b] => some (.classByName c.toNat b.toNat)
  | .TR_ValidateProfiledClass, [c, cc] => some (.profiledClass c.toNat cc.toNat)
  | .TR_ValidateClassFromCP, [c, b, i] => some (.classFromCP c.toNat b.toNat i.toNat)
  | .TR_ValidateDefiningClassFromCP, [c, b, i, s] =>
      some (.definingClassFromCP c.toNat b.toNat i.toNat (boolFromKey s))
  | .TR_ValidateStaticClassFromCP, [c, b, i] =>
      some (.staticClassFromCP c.toNat b.toNat i.toNat)
  | .TR_ValidateClassFromMethod, [c, m] => some (.classFromMethod c.toNat m.toNat)
  | .TR_ValidateComponentClassFromArrayClass, [c, a] =>
      some (.componentClassFromArrayClass c.toNat a.toNat)
  | .TR_ValidateArrayClassFromComponentClass, [a, c] =>
      some (.arrayClassFromComponentClass a.toNat c.toNat)
  | .TR_ValidateSuperClassFromClass, [s, c] =>
      some (.superClassFromClass s.toNat c.toNat)
  | .TR_ValidateClassInstanceOfClass, [c1, c2, f1, f2, f3] =>
      some (.classInstanceOfClass c1.toNat c2.toNat
        (boolFromKey f1) (boolFromKey f2) (boolFromKey f3))
  | .TR_ValidateSystemClassByName, [s] => some (.systemClassByName s.toNat)
  | .TR_ValidateClassFromITableIndexCP, [c, b, i] =>
      some (.classFromITableIndexCP c.toNat b.toNat i)
  | .TR_ValidateDeclaringClassFromFieldOrStatic, [c, b, i] =>
      some (.declaringClassFromFieldOrStatic c.toNat b.toNat i.toNat)
  | .TR_ValidateClassClass, [c, o] => some (.classClass c.toNat o.toNat)
  | .TR_ValidateConcreteSubClassFromClass, [c, s] =>
      some (.concreteSubClassFromClass c.toNat s.toNat)
  | .TR_ValidateClassChain, [c, cc] => some (.classChain c.toNat cc.toNat)
  | .TR_ValidateMethodFromClass, [m, b, i] =>
      some (.methodFromClass m.toNat b.toNat i.toNat)
  | .TR_ValidateStaticMethodFromCP, [m, b, i] =>
      some (.staticMethodFromCP m.toNat b.toNat i)
  | .TR_ValidateSpecialMethodFromCP, [m, b, i] =>
      some (.specialMethodFromCP m.toNat b.toNat i)
  | .TR_ValidateVirtualMethodFromCP, [m, b, i] =>
      some (.virtualMethodFromCP m.toNat b.toNat i)
  | .TR_ValidateVirtualMethodFromOffset, [m, b, o, ig] =>
      some (.virtualMethodFromOffset m.toNat b.toNat o (boolFromKey ig))
  | .TR_ValidateInterfaceMethodFromCP, [m, b, l, i] =>
      some (.interfaceMethodFromCP m.toNat b.toNat l.toNat i)
  | .TR_ValidateMethodFromClassAndSig, [m, mc, b] =>
      some (.methodFromClassAndSig m.toNat mc.toNat b.toNat)
  | .TR_ValidateStackWalkerMaySkipFramesRecord, [m, mc, s] =>
      some (.stackWalkerMaySkipFrames m.toNat mc.toNat (boolFromKey s))
  | .TR_ValidateClassInfoIsInitialized, [c, i] =>
      some (.classInfoIsInitialized c.toNat (boolFromKey i))
  | .TR_ValidateMethodFromSingleImplementer, [m, tc, i, cm, u] =>
      some (.methodFromSingleImplementer m.toNat tc.toNat i cm.toNat (ynmFromKey u))
  | .TR_ValidateMethodFromSingleInterfaceImplementer, [m, tc, i, cm] =>
      some (.methodFromSingleInterfaceImplementer m.toNat tc.toNat i cm.toNat)
  | .TR_ValidateMethodFromSingleAbstractImplementer, [m, tc, v, cm] =>
      some (.methodFromSingleAbstractImplementer m.toNat tc.toNat v cm.toNat)
  | .TR_ValidateImproperInterfaceMethodFromCP, [m, b, i] =>
      some (.improperInterfaceMethodFromCP m.toNat b.toNat i)
  | _, _ => none

lemma fromKey_fieldsKey (r : SymbolValidationRecord) :
    fromKey r.kindOf r.fieldsKey = some r := by
  cases r <;> simp [fromKey, fieldsKey, kindOf]

/-- Two records of the same kind with the same field keys are the same
record: every kind-specific field participates in the comparison key. -/
lemma fieldsKey_inj {a b : SymbolValidationRecord}
    (hk : a.kindOf = b.kindOf) (hf : a.fieldsKey = b.fieldsKey) : a = b := by
  have ha := fromKey_fieldsKey a
  rw [hk, hf, fromKey_fieldsKey b] at ha
  exact (Option.some_inj.mp ha).symm

lemma fieldsKey_length_eq_of_kind {a b : SymbolValidationRecord}
    (hk : a.kindOf = b.kindOf) : a.fieldsKey.length = b.fieldsKey.length := by
  cases a <;> cases b <;> simp_all [kindOf, fieldsKey]

lemma lexLt_irrefl (xs : List Int) : lexLt xs xs = false := by
  induction xs with
  | nil => rfl
  | cons x xs ih => simp [lexLt, ih]

lemma lexLt_asymm : ∀ xs ys : List Int, lexLt xs ys = true → lexLt ys xs = false := by
  intro xs
  induction xs with
  | nil =>
    intro ys h
    cases ys with
    | nil => simp [lexLt] at h
    | cons y ys => simp [lexLt]
  | cons x xs ih =>
    intro ys h
    cases ys with
    | nil => simp [lexLt] at h
    | cons y ys =>
      simp only [lexLt, Bool.or_eq_true, Bool.and_eq_true, decide_eq_true_eq,
        beq_iff_eq, Bool.or_eq_false_iff, Bool.and_eq_false_iff,
        decide_eq_false_iff_not, beq_eq_false_iff_ne, ne_eq] at h ⊢
      rcases h with h | ⟨he, hl⟩
      · exact ⟨by omega, .inl (by omega)⟩
      · exact ⟨by omega, .inr (ih ys hl)⟩

lemma lexLt_eq_of_both_false :
    ∀ xs ys : List Int, xs.length = ys.length →
      lexLt xs ys = false → lexLt ys xs = false → xs = ys := by
  intro xs
  induction xs with
  | nil =>
    intro ys hlen _ _
    cases ys with
    | nil => rfl
    | cons y ys => simp at hlen
  | cons x xs ih =>
    intro ys hlen h1 h2
    cases ys with
    | nil => simp at hlen
    | cons y ys =>
      simp only [lexLt, Bool.or_eq_false_iff, Bool.and_eq_false_iff,
        decide_eq_false_iff_not, beq_eq_false_iff_ne, ne_eq] at h1 h2
      have hxy : x = y := by
        rcases h1 with ⟨h1a, _⟩
        rcases h2 with ⟨h2a, _⟩
        omega
      subst hxy
      rcases h1 with ⟨-, h1⟩
      rcases h2 with ⟨-, h2⟩
      simp only [List.length_cons, Nat.add_right_cancel_iff] at hlen
      rcases h1 with h1 | h1
      · exact absurd rfl h1
      · rcases h2 with h2 | h2
        · exact absurd rfl h2
        · rw [ih ys hlen h1 h2]

lemma kindTag_inj : ∀ k1 k2 : RecordKind, kindTag k1 = kindTag k2 → k1 = k2 := by
  decide

lemma isLessThan_eq_within {a b : SymbolValidationRecord}
    (hk : a.kindOf = b.kindOf) : isLessThan a b = isLessThanWithinKind a b := by
  simp [isLessThan, hk]

lemma isLessThan_irrefl (a : SymbolValidationRecord) : isLessThan a a = false := by
  simp [isLessThan, isLessThanWithinKind, lexLt_irrefl]

lemma isEqual_refl (a : SymbolValidationRecord) : isEqual a a = true := by
  simp [isEqual, isLessThan_irrefl]

end SymbolValidationRecord

/-- The record kinds that describe the provenance of a type symbol: how the
class being validated was derived/discovered.  In the header these are
exactly the record structs that the class-record path handles (they
describe a clazz found by name, from a constant pool, structurally from
another class, etc.); they derive from ClassValidationRecord so that the
array-dimension bookkeeping can recognize them. -/
def classProvenanceKinds : List RecordKind :=
  [.TR_ValidateClassByName, .TR_ValidateProfiledClass, .TR_ValidateClassFromCP,
   .TR_ValidateDefiningClassFromCP, .TR_ValidateStaticClassFromCP,
   .TR_ValidateClassFromMethod, .TR_ValidateComponentClassFromArrayClass,
   .TR_ValidateArrayClassFromComponentClass, .TR_ValidateSuperClassFromClass,
   .TR_ValidateSystemClassByName, .TR_ValidateClassFromITableIndexCP,
   .TR_ValidateDeclaringClassFromFieldOrStatic, .TR_ValidateClassClass,
   .TR_ValidateConcreteSubClassFromClass]

/-- The record kinds that describe the provenance of a procedure (method)
symbol: how the method being validated was derived/discovered. -/
def procedureProvenanceKinds : List RecordKind :=
  [.TR_ValidateMethodFromClass, .TR_ValidateStaticMethodFromCP,
   .TR_ValidateSpecialMethodFromCP, .TR_ValidateVirtualMethodFromCP,
   .TR_ValidateVirtualMethodFromOffset, .TR_ValidateInterfaceMethodFromCP,
   .TR_ValidateMethodFromClassAndSig, .TR_ValidateMethodFromSingleImplementer,
   .TR_ValidateMethodFromSingleInterfaceImplementer,
   .TR_ValidateMethodFromSingleAbstractImplementer,
   .TR_ValidateImproperInterfaceMethodFromCP]

/-- Convenient predicate for claim C8: the ID→symbol table of the manager
binds `id` to a symbol of category `type`. -/
def SymbolValidationManager.hasBoundSymbolOfType (svm : SymbolValidationManager)
    (id : Nat) (type : SymbolType) : Bool :=
  match svm.idToSymbolTable.get? id with
  | some e => e.hasValue && e.type == type
  | none => false

open SymbolValidationRecord SymbolValidationManager

/-- C1: for every symbol s (with or without an assigned ID), while the
manager's heuristic-region nesting counter is positive `isAlreadyValidated s`
returns true; when the counter is zero, it returns true exactly when
`tryGetIDFromSymbol s` returns an ID different from NO_ID. -/
theorem claim_C1_isAlreadyValidated (svm : SymbolValidationManager) (s : Ptr) :
    (0 < svm.heuristicRegion → svm.isAlreadyValidated s = true) ∧
    (svm.heuristicRegion = 0 →
      (svm.isAlreadyValidated s = true ↔ svm.tryGetIDFromSymbol s ≠ NO_ID)) := by
  constructor
  · intro h
    simp [isAlreadyValidated, inHeuristicRegion, h]
  · intro h
    simp [isAlreadyValidated, inHeuristicRegion, h]

/-- Witness for C1: concrete instantiations of both branches.  The freshly
constructed manager has counter 0 and no ID for symbol 5, so
`isAlreadyValidated` is decided by `tryGetIDFromSymbol`; after one
`enterHeuristicRegion` the counter is 1 and every symbol reads validated. -/
theorem claim_C1_isAlreadyValidated_witness :
    (SymbolValidationManager.init.isAlreadyValidated 5 = true ↔
      SymbolValidationManager.init.tryGetIDFromSymbol 5 ≠ NO_ID) ∧
    SymbolValidationManager.init.enterHeuristicRegion.isAlreadyValidated 5 = true :=
  ⟨(claim_C1_isAlreadyValidated SymbolValidationManager.init 5).2 rfl,
   (claim_C1_isAlreadyValidated SymbolValidationManager.init.enterHeuristicRegion 5).1
     (by decide)⟩

/-- C4: `isLessThan a b` holds if a's kind tag is strictly smaller than
b's, is false if strictly larger, and otherwise equals the kind-specific
`isLessThanWithinKind a b`; `isEqual a b` holds exactly when neither
`isLessThan a b` nor `isLessThan b a` holds. -/
theorem claim_C4_isLessThan_isEqual (a b : SymbolValidationRecord) :
    (kindTag a.kindOf < kindTag b.kindOf → isLessThan a b = true) ∧
    (kindTag b.kindOf < kindTag a.kindOf → isLessThan a b = false) ∧
    (a.kindOf = b.kindOf → isLessThan a b = isLessThanWithinKind a b) ∧
    (isEqual a b = true ↔ (isLessThan a b = false ∧ isLessThan b a = false)) := by
  refine ⟨fun h => ?_, fun h => ?_, fun h => isLessThan_eq_within h, ?_⟩
  · simp [isLessThan, h]
  · simp [isLessThan, h, Nat.lt_asymm h]
  · simp [isEqual]

/-- Witness for C4: concrete records of kinds with tags 0 and 1, both tag
orderings, the within-kind case, and the isEqual characterization. -/
theorem claim_C4_isLessThan_isEqual_witness :
    isLessThan (.classByName 1 2) (.profiledClass 1 2) = true ∧
    isLessThan (.profiledClass 1 2) (.classByName 1 2) = false ∧
    isLessThan (.classByName 1 2) (.classByName 1 3) =
      isLessThanWithinKind (.classByName 1 2) (.classByName 1 3) ∧
    (isEqual (.classByName 1 2) (.profiledClass 1 2) = true ↔
      (isLessThan (.classByName 1 2) (.profiledClass 1 2) = false ∧
       isLessThan (.profiledClass 1 2) (.classByName 1 2) = false)) :=
  ⟨(claim_C4_isLessThan_isEqual (.classByName 1 2) (.profiledClass 1 2)).1 (by decide),
   (claim_C4_isLessThan_isEqual (.profiledClass 1 2) (.classByName 1 2)).2.1 (by decide),
   (claim_C4_isLessThan_isEqual (.classByName 1 2) (.classByName 1 3)).2.2.1 rfl,
   (claim_C4_isLessThan_isEqual (.classByName 1 2) (.profiledClass 1 2)).2.2.2⟩

/-- C5: every add*Record operation, when the symbol argument is NULL or the
manager is inside a heuristic region, returns false, adds no record to the
list or the ordered set, and allocates no ID (the whole manager state is
unchanged). -/
theorem claim_C5_addRecord_refusal (svm : SymbolValidationManager) (s : Ptr)
    (r : SymbolValidationRecord)
    (h : s = NULLptr ∨ svm.inHeuristicRegion = true) :
    svm.addRecord s r = .ok (false, svm) := by
  have hnd : svm.shouldNotDefineSymbol s = true := by
    rcases h with h | h
    · simp [shouldNotDefineSymbol, h, NULLptr]
    · simp [shouldNotDefineSymbol, h]
  simp [addRecord, hnd]

/-- Witness for C5: a NULL symbol on the fresh manager, and a non-NULL
symbol inside a heuristic region, are both refused with the state intact. -/
theorem claim_C5_addRecord_refusal_witness :
    SymbolValidationManager.init.addRecord NULLptr (.classByName 1 2) =
      .ok (false, SymbolValidationManager.init) ∧
    SymbolValidationManager.init.enterHeuristicRegion.addRecord 7 (.classByName 1 2) =
      .ok (false, SymbolValidationManager.init.enterHeuristicRegion) :=
  ⟨claim_C5_addRecord_refusal SymbolValidationManager.init NULLptr
     (.classByName 1 2) (.inl rfl),
   claim_C5_addRecord_refusal SymbolValidationManager.init.enterHeuristicRegion 7
     (.classByName 1 2) (.inr (by decide))⟩

/-- C8: for an ID lookup during load, if the ID has no bound symbol of the
requested category then a SymRequired call signals failure and a
SymOptional call returns an empty result (NULL) without signaling failure;
getClassFromID and getMethodFromID are the class- and method-typed
instances. -/
theorem claim_C8_presence_modes (svm : SymbolValidationManager) (id : Nat)
    (type : SymbolType) (h : svm.hasBoundSymbolOfType id type = false) :
    svm.getSymbolFromID id type .SymRequired = .error () ∧
    svm.getSymbolFromID id type .SymOptional = .ok NULLptr ∧
    (type = .typeClass →
      svm.getClassFromID id .SymRequired = .error () ∧
      svm.getClassFromID id .SymOptional = .ok NULLptr) ∧
    (type = .typeMethod →
      svm.getMethodFromID id .SymRequired = .error () ∧
      svm.getMethodFromID id .SymOptional = .ok NULLptr) := by
  unfold hasBoundSymbolOfType at h
  have main : ∀ p : Presence, svm.getSymbolFromID id type p =
      match p with
      | .SymRequired => .error ()
      | .SymOptional => .ok NULLptr := by
    intro p
    unfold getSymbolFromID
    cases he : svm.idToSymbolTable.get? id with
    | none => cases p <;> simp
    | some e =>
      rw [he] at h
      have hb : (e.hasValue && e.type == type) = false := h
      cases p <;> simp [hb]
  refine ⟨main .SymRequired, main .SymOptional, fun ht => ?_, fun ht => ?_⟩
  · subst ht
    exact ⟨main .SymRequired, main .SymOptional⟩
  · subst ht
    exact ⟨main .SymRequired, main .SymOptional⟩

/-- Witness for C8: the fresh manager binds no IDs, so looking up ID 3 as a
class fails when required and yields NULL when optional. -/
theorem claim_C8_presence_modes_witness :
    SymbolValidationManager.init.getSymbolFromID 3 .typeClass .SymRequired = .error () ∧
    SymbolValidationManager.init.getSymbolFromID 3 .typeClass .SymOptional = .ok NULLptr :=
  ⟨(claim_C8_presence_modes SymbolValidationManager.init 3 .typeClass (by decide)).1,
   (claim_C8_presence_modes SymbolValidationManager.init 3 .typeClass (by decide)).2.1⟩

/-- C9: every record describing type provenance marks itself as a class
validation record (isClassValidationRecord = true), and no record
describing procedure provenance does, so isClassValidationRecord
distinguishes type provenance from procedure provenance for the
array-dimension bookkeeping. -/
theorem claim_C9_isClassValidationRecord :
    (∀ r : SymbolValidationRecord,
      classProvenanceKinds.contains r.kindOf = true →
        r.isClassValidationRecord = true) ∧
    (∀ r : SymbolValidationRecord,
      (procedureProvenanceKinds.contains r.kindOf && r.isClassValidationRecord) = false) := by
  constructor
  · intro r
    cases r <;> simp [kindOf, isClassValidationRecord, classProvenanceKinds]
  · intro r
    cases r <;> rfl

/-- Witness for C9: a class-by-name record (type provenance) is marked, a
virtual-method record (procedure provenance) is not. -/
theorem claim_C9_isClassValidationRecord_witness :
    (SymbolValidationRecord.classByName 1 2).isClassValidationRecord = true ∧
    (procedureProvenanceKinds.contains
        (SymbolValidationRecord.virtualMethodFromCP 1 2 3).kindOf &&
      (SymbolValidationRecord.virtualMethodFromCP 1 2 3).isClassValidationRecord) = false :=
  ⟨claim_C9_isClassValidationRecord.1 (.classByName 1 2) (by decide),
   claim_C9_isClassValidationRecord.2 (.virtualMethodFromCP 1 2 3)⟩

/-- C10: the heuristic-region nesting counter is a 32-bit unsigned integer
decremented unconditionally by exitHeuristicRegion: from counter 0 one call
wraps it modulo 2^32 to 4294967295, after which inHeuristicRegion is true,
every symbol is reported as already validated, and no records or IDs are
created (every add*Record refuses), even though no region was entered. -/
theorem claim_C10_exit_wraps (svm : SymbolValidationManager)
    (h : svm.heuristicRegion = 0) :
    svm.exitHeuristicRegion.heuristicRegion = 4294967295 ∧
    svm.exitHeuristicRegion.inHeuristicRegion = true ∧
    (∀ s : Ptr, svm.exitHeuristicRegion.isAlreadyValidated s = true) ∧
    (∀ s : Ptr, svm.exitHeuristicRegion.shouldNotDefineSymbol s = true) ∧
    (∀ (s : Ptr) (r : SymbolValidationRecord),
      svm.exitHeuristicRegion.addRecord s r = .ok (false, svm.exitHeuristicRegion)) := by
  have hc : svm.exitHeuristicRegion.heuristicRegion = 4294967295 := by
    simp [exitHeuristicRegion, h]
  have hin : svm.exitHeuristicRegion.inHeuristicRegion = true := by
    simp [inHeuristicRegion, hc]
  refine ⟨hc, hin, fun s => ?_, fun s => ?_, fun s r => ?_⟩
  · simp [isAlreadyValidated, hin]
  · simp [shouldNotDefineSymbol, hin]
  · simp [addRecord, shouldNotDefineSymbol, hin]

/-- Witness for C10: one unpaired exit on the fresh manager (counter 0)
wraps to 4294967295 and freezes record creation. -/
theorem claim_C10_exit_wraps_witness :
    SymbolValidationManager.init.exitHeuristicRegion.heuristicRegion = 4294967295 ∧
    SymbolValidationManager.init.exitHeuristicRegion.inHeuristicRegion = true ∧
    SymbolValidationManager.init.exitHeuristicRegion.isAlreadyValidated 9 = true ∧
    SymbolValidationManager.init.exitHeuristicRegion.addRecord 9 (.classByName 1 2) =
      .ok (false, SymbolValidationManager.init.exitHeuristicRegion) := by
  have h := claim_C10_exit_wraps SymbolValidationManager.init rfl
  exact ⟨h.1, h.2.1, h.2.2.1 9, h.2.2.2.2 9 (.classByName 1 2)⟩

/-- C3: for two records of the same kind, exactly one of `isLessThan a b`
and `isLessThan b a` holds when their kind-specific field values differ,
and both are false exactly when the records have identical field values. -/
theorem claim_C3_total_order_within_kind (a b : SymbolValidationRecord)
    (hk : a.kindOf = b.kindOf) :
    (a ≠ b →
      (isLessThan a b = true ∧ isLessThan b a = false) ∨
      (isLessThan a b = false ∧ isLessThan b a = true)) ∧
    ((isLessThan a b = false ∧ isLessThan b a = false) ↔ a = b) := by
  have hw : isLessThan a b = lexLt a.fieldsKey b.fieldsKey := by
    rw [isLessThan_eq_within hk]; rfl
  have hw' : isLessThan b a = lexLt b.fieldsKey a.fieldsKey := by
    rw [isLessThan_eq_within hk.symm]; rfl
  have hlen := fieldsKey_length_eq_of_kind hk
  have hiff : (isLessThan a b = false ∧ isLessThan b a = false) ↔ a = b := by
    constructor
    · rintro ⟨h1, h2⟩
      rw [hw] at h1
      rw [hw'] at h2
      exact fieldsKey_inj hk (lexLt_eq_of_both_false _ _ hlen h1 h2)
    · rintro rfl
      exact ⟨isLessThan_irrefl a, isLessThan_irrefl a⟩
  refine ⟨fun hne => ?_, hiff⟩
  cases hab : lexLt a.fieldsKey b.fieldsKey with
  | true =>
    left
    exact ⟨hw.trans hab, by rw [hw']; exact lexLt_asymm _ _ hab⟩
  | false =>
    cases hba : lexLt b.fieldsKey a.fieldsKey with
    | true =>
      right
      exact ⟨hw.trans hab, hw'.trans hba⟩
    | false =>
      exact absurd (hiff.mp ⟨hw.trans hab, hw'.trans hba⟩) hne

/-- Witness for C3: two class-by-name records over different beholders are
strictly ordered one way and not the other. -/
theorem claim_C3_total_order_within_kind_witness :
    (isLessThan (.classByName 1 2) (.classByName 1 3) = true ∧
     isLessThan (.classByName 1 3) (.classByName 1 2) = false) ∨
    (isLessThan (.classByName 1 2) (.classByName 1 3) = false ∧
     isLessThan (.classByName 1 3) (.classByName 1 2) = true) :=
  (claim_C3_total_order_within_kind (.classByName 1 2) (.classByName 1 3) rfl).1
    (by decide)

lemma getNewSymbolID_ok_heuristic {svm : SymbolValidationManager} {id : Nat}
    {svm' : SymbolValidationManager} (h : svm.getNewSymbolID = .ok (id, svm')) :
    svm'.heuristicRegion = svm.heuristicRegion := by
  unfold getNewSymbolID at h
  split at h
  · cases h
    rfl
  · cases h

lemma appendRecordIfNew_ok_state {svm : SymbolValidationManager} {s : Ptr}
    {r : SymbolValidationRecord} {svm' : SymbolValidationManager}
    (h : svm.appendRecordIfNew s r = .ok svm') :
    svm'.heuristicRegion = svm.heuristicRegion ∧ svm'.recordExists r = true := by
  unfold appendRecordIfNew at h
  cases hex : svm.recordExists r with
  | true =>
    rw [hex] at h
    simp only [if_pos] at h
    cases h
    exact ⟨rfl, hex⟩
  | false =>
    rw [hex] at h
    simp only [Bool.false_eq_true, if_false] at h
    unfold appendNewRecord at h
    split at h
    · cases hg : svm.getNewSymbolID with
      | ok p =>
        obtain ⟨id, svmg⟩ := p
        rw [hg] at h
        cases h
        constructor
        · exact @getNewSymbolID_ok_heuristic svm id svmg hg
        · simp [recordExists, isEqual_refl]
      | error e =>
        rw [hg] at h
        cases h
    · cases h
      refine ⟨rfl, ?_⟩
      simp [recordExists, isEqual_refl]

/-- C2 counterexample: the claim asserts that for every argument tuple both
identical add*Record calls report success; with a NULL symbol the very
first call already reports false (and changes nothing), so the
all-tuples success claim is refuted at this concrete input. -/
theorem claim_C2_counterexample :
    SymbolValidationManager.init.addRecord NULLptr (.classByName 1 2) =
      .ok (false, SymbolValidationManager.init) := by
  rfl

/-- C2 (amended): if an add*Record call completes with result flag b and
state svm1, calling it again with identical arguments returns the same
flag and leaves the manager state (record list and ordered set) exactly as
after the first call; the calls report success precisely when the symbol is
non-NULL and the manager is outside heuristic regions. -/
theorem claim_C2_addRecord_idempotent (svm : SymbolValidationManager) (s : Ptr)
    (r : SymbolValidationRecord) (b1 : Bool) (svm1 : SymbolValidationManager)
    (h : svm.addRecord s r = .ok (b1, svm1)) :
    svm1.addRecord s r = .ok (b1, svm1) ∧
    (b1 = true ↔ svm.shouldNotDefineSymbol s = false) := by
  unfold addRecord at h
  cases hnd : svm.shouldNotDefineSymbol s with
  | true =>
    rw [hnd] at h
    simp only [if_pos] at h
    cases h
    constructor
    · unfold addRecord
      rw [hnd]
      simp
    · simp [hnd]
  | false =>
    rw [hnd] at h
    simp only [Bool.false_eq_true, if_false] at h
    cases ha : svm.appendRecordIfNew s r with
    | error e =>
      rw [ha] at h
      cases h
    | ok svm2 =>
      rw [ha] at h
      simp only [Except.ok.injEq, Prod.mk.injEq] at h
      obtain ⟨hb, hs⟩ := h
      subst hb
      subst hs
      have hstate := appendRecordIfNew_ok_state ha
      have hnd2 : svm2.shouldNotDefineSymbol s = false := by
        unfold shouldNotDefineSymbol inHeuristicRegion at hnd ⊢
        rw [hstate.1]
        exact hnd
      constructor
      · unfold addRecord
        rw [hnd2]
        simp only [Bool.false_eq_true, if_false]
        unfold appendRecordIfNew
        rw [hstate.2]
        simp
      · simp [hnd]

/-- Witness for C2 (amended): a successful add of a class-by-name record
for symbol 7 on the fresh manager, repeated: the second call returns the
same success flag and the identical state. -/
theorem claim_C2_addRecord_idempotent_witness :
    (⟨2, 0, [(7, 1)], [SymbolValidationRecord.classByName 1 2],
      [SymbolValidationRecord.classByName 1 2], []⟩ :
        SymbolValidationManager).addRecord 7 (.classByName 1 2) =
      .ok (true, ⟨2, 0, [(7, 1)], [SymbolValidationRecord.classByName 1 2],
        [SymbolValidationRecord.classByName 1 2], []⟩) ∧
    (true = true ↔ SymbolValidationManager.init.shouldNotDefineSymbol 7 = false) :=
  claim_C2_addRecord_idempotent SymbolValidationManager.init 7 (.classByName 1 2)
    true ⟨2, 0, [(7, 1)], [SymbolValidationRecord.classByName 1 2],
      [SymbolValidationRecord.classByName 1 2], []⟩ (by rfl)

lemma newSymbolIDs_ok_spec :
    ∀ (n : Nat) (svm : SymbolValidationManager) (ids : List Nat)
      (svm' : SymbolValidationManager),
      svm.newSymbolIDs n = .ok (ids, svm') →
      ids = List.range' svm.symbolID n ∧ svm'.symbolID = svm.symbolID + n ∧
      ∀ id ∈ ids, id < 65535 := by
  intro n
  induction n with
  | zero =>
    intro svm ids svm' h
    unfold newSymbolIDs at h
    cases h
    simp [List.range']
  | succ n ih =>
    intro svm ids svm' h
    unfold newSymbolIDs at h
    cases hg : svm.getNewSymbolID with
    | error e =>
      rw [hg] at h
      cases h
    | ok p =>
      obtain ⟨id, svmg⟩ := p
      rw [hg] at h
      dsimp only at h
      cases hr : svmg.newSymbolIDs n with
      | error e =>
        rw [hr] at h
        cases h
      | ok q =>
        obtain ⟨ids1, svm2⟩ := q
        rw [hr] at h
        cases h
        obtain ⟨hids, hsid, hbound⟩ := ih svmg ids1 _ hr
        have hg' := hg
        unfold getNewSymbolID at hg'
        split at hg'
        next hlt =>
          simp only [Except.ok.injEq, Prod.mk.injEq] at hg'
          obtain ⟨hid, hsvmg⟩ := hg'
          subst hid
          have hsg : svmg.symbolID = svm.symbolID + 1 := by rw [← hsvmg]
          refine ⟨?_, by omega, ?_⟩
          · rw [List.range'_succ, hids, hsg]
          · intro x hx
            rcases List.mem_cons.mp hx with rfl | hx
            · exact hlt
            · exact hbound x hx
        next =>
          cases hg'

/-- C6: symbol IDs are 16-bit; NO_ID = 0 is reserved and never assigned;
the first assigned ID is FIRST_ID = 1; and consecutive getNewSymbolID calls
on one manager instance return the strictly increasing sequence 1, 2, ...
(each returned ID is strictly greater than all previously returned ones,
never reused or reassigned). -/
theorem claim_C6_symbol_ids :
    NO_ID = 0 ∧ FIRST_ID = 1 ∧ SymbolValidationManager.init.symbolID = FIRST_ID ∧
    ∀ (n : Nat) (ids : List Nat) (svm' : SymbolValidationManager),
      SymbolValidationManager.init.newSymbolIDs n = .ok (ids, svm') →
      ids = List.range' FIRST_ID n ∧
      List.Pairwise (fun i j => i < j) ids ∧
      ∀ id ∈ ids, FIRST_ID ≤ id ∧ id ≠ NO_ID ∧ id < 65536 := by
  refine ⟨rfl, rfl, rfl, fun n ids svm' h => ?_⟩
  obtain ⟨hids, -, hbound⟩ := newSymbolIDs_ok_spec n _ ids svm' h
  have hids' : ids = List.range' FIRST_ID n := hids
  refine ⟨hids', ?_, fun id hid => ?_⟩
  · rw [hids']
    exact List.pairwise_lt_range' FIRST_ID n
  · have hmem : id ∈ List.range' FIRST_ID n := by rw [← hids']; exact hid
    have hlow : FIRST_ID ≤ id := (List.mem_range'_1.mp hmem).1
    have hlow1 : 1 ≤ id := hlow
    refine ⟨hlow, ?_, ?_⟩
    · simp only [NO_ID]
      omega
    · have := hbound id hid
      omega

/-- Witness for C6: three allocations on a fresh manager hand out exactly
[1, 2, 3], strictly increasing and NO_ID-free. -/
theorem claim_C6_symbol_ids_witness :
    [1, 2, 3] = List.range' FIRST_ID 3 ∧
    List.Pairwise (fun i j => i < j) [1, 2, 3] := by
  have h := claim_C6_symbol_ids.2.2.2 3 [1, 2, 3] ⟨4, 0, [], [], [], []⟩ (by rfl)
  exact ⟨h.1, h.2.1⟩

/-- C7: two class-instance-of-class records over the same two type operands
that differ in any of the three flags (objectTypeIsFixed, castTypeIsFixed,
isInstanceOf) are distinct facts: they compare unequal under the record
order, and adding both stores both in the record list. -/
theorem claim_C7_instanceOf_flags (c1 c2 : Ptr) (f1 f2 f3 g1 g2 g3 : Bool)
    (hc : c1 ≠ NULLptr) (hne : (f1, f2, f3) ≠ (g1, g2, g3)) :
    isEqual (.classInstanceOfClass c1 c2 f1 f2 f3)
      (.classInstanceOfClass c1 c2 g1 g2 g3) = false ∧
    SymbolValidationManager.init.addRecord c1 (.classInstanceOfClass c1 c2 f1 f2 f3) =
      .ok (true, ⟨2, 0, [(c1, 1)], [.classInstanceOfClass c1 c2 f1 f2 f3],
        [.classInstanceOfClass c1 c2 f1 f2 f3], []⟩) ∧
    (⟨2, 0, [(c1, 1)], [.classInstanceOfClass c1 c2 f1 f2 f3],
      [.classInstanceOfClass c1 c2 f1 f2 f3], []⟩ :
        SymbolValidationManager).addRecord c1 (.classInstanceOfClass c1 c2 g1 g2 g3) =
      .ok (true, ⟨2, 0, [(c1, 1)],
        [.classInstanceOfClass c1 c2 f1 f2 f3, .classInstanceOfClass c1 c2 g1 g2 g3],
        [.classInstanceOfClass c1 c2 g1 g2 g3, .classInstanceOfClass c1 c2 f1 f2 f3],
        []⟩) := by
  have hrne : (SymbolValidationRecord.classInstanceOfClass c1 c2 f1 f2 f3) ≠
      (SymbolValidationRecord.classInstanceOfClass c1 c2 g1 g2 g3) := by
    intro hcontra
    apply hne
    injection hcontra with e1 e2 e3 e4 e5
    rw [e3, e4, e5]
  have hneq : isEqual (.classInstanceOfClass c1 c2 f1 f2 f3)
      (.classInstanceOfClass c1 c2 g1 g2 g3) = false := by
    cases heq : isEqual (.classInstanceOfClass c1 c2 f1 f2 f3)
        (.classInstanceOfClass c1 c2 g1 g2 g3) with
    | false => rfl
    | true =>
      exfalso
      unfold isEqual at heq
      simp only [Bool.and_eq_true, Bool.not_eq_true'] at heq
      have hab : lexLt (fieldsKey (.classInstanceOfClass c1 c2 f1 f2 f3))
          (fieldsKey (.classInstanceOfClass c1 c2 g1 g2 g3)) = false := by
        have h1 := heq.1
        rw [@isLessThan_eq_within (.classInstanceOfClass c1 c2 f1 f2 f3)
          (.classInstanceOfClass c1 c2 g1 g2 g3) rfl] at h1
        exact h1
      have hba : lexLt (fieldsKey (.classInstanceOfClass c1 c2 g1 g2 g3))
          (fieldsKey (.classInstanceOfClass c1 c2 f1 f2 f3)) = false := by
        have h2 := heq.2
        rw [@isLessThan_eq_within (.classInstanceOfClass c1 c2 g1 g2 g3)
          (.classInstanceOfClass c1 c2 f1 f2 f3) rfl] at h2
        exact h2
      exact hrne (fieldsKey_inj rfl
        (lexLt_eq_of_both_false _ _ (by rfl) hab hba))
  have hc0 : (c1 == NULLptr) = false := beq_eq_false_iff_ne.mpr hc
  have hnd : ∀ svm : SymbolValidationManager, svm.heuristicRegion = 0 →
      svm.shouldNotDefineSymbol c1 = false := by
    intro svm hz
    unfold shouldNotDefineSymbol inHeuristicRegion
    rw [hz]
    simp [hc0]
  refine ⟨hneq, ?_, ?_⟩
  · unfold addRecord
    rw [hnd SymbolValidationManager.init rfl]
    simp only [Bool.false_eq_true, if_false]
    unfold appendRecordIfNew recordExists appendNewRecord tryGetIDFromSymbol
      getNewSymbolID
    simp [SymbolValidationManager.init, NO_ID, FIRST_ID]
  · unfold addRecord
    rw [hnd ⟨2, 0, [(c1, 1)], [.classInstanceOfClass c1 c2 f1 f2 f3],
      [.classInstanceOfClass c1 c2 f1 f2 f3], []⟩ rfl]
    simp only [Bool.false_eq_true, if_false]
    unfold appendRecordIfNew recordExists appendNewRecord tryGetIDFromSymbol
      getNewSymbolID
    simp [hneq, NO_ID]

/-- Witness for C7: operands 3 and 4, flag triples (true,false,false) and
(false,false,false): the two records compare unequal. -/
theorem claim_C7_instanceOf_flags_witness :
    isEqual (.classInstanceOfClass 3 4 true false false)
      (.classInstanceOfClass 3 4 false false false) = false :=
  (claim_C7_instanceOf_flags 3 4 true false false false false false
    (by decide) (by decide)).1

end SVM
